import Mathlib

/-!
Verification of the AutoAudit API response cache
(`app/api/middleware/cache_middleware.py`, `app/services/cache_service.py`,
`app/api/v1/cache.py`).

Python strings are modelled as `List Char`, the Redis database as an
association list from namespaced keys to stored strings, and the
JSON snapshot codec (`json.dumps` / `json.loads` of the payload dict
`body / headers / status_code`) as an injective, losslessly invertible
serialisation into `List Char` whose decoder can fail on arbitrary
stored strings, mirroring the recoverable decode-failure path of the
middleware.  TTL expiry is enforced by the Redis backend and is outside
the model: a stored entry simply persists, which models any read that
happens within the TTL window.
-/

set_option autoImplicit false
set_option maxRecDepth 100000

namespace AutoAudit

/-- Model of a Python `str`: a list of characters. -/
abbrev Str := List Char

/-! ### Association-list model of the Redis key/value store -/

/-- Redis `GET key`: first binding of the key, if present. -/
def lookupStore : List (Str × Str) → Str → Option Str
  | [], _ => none
  | (k, v) :: rest, key => if k = key then some v else lookupStore rest key

/-- Redis `SET key value`: overwrite the binding if the key is present,
append it otherwise.  Also the model of a Python dict update, which keeps
the key's first position and replaces its value. -/
def updateAssoc : List (Str × Str) → Str → Str → List (Str × Str)
  | [], key, value => [(key, value)]
  | (k, v) :: rest, key, value =>
      if k = key then (k, value) :: rest else (k, v) :: updateAssoc rest key value

/-- The Python dict comprehension `{k.decode(): v.decode() for k, v in raw_headers}`
of `_ResponseCatcher.__call__`: keys keep their first-occurrence order and a
repeated key keeps only its last value. -/
def pyDict (l : List (Str × Str)) : List (Str × Str) :=
  l.foldl (fun d p => updateAssoc d p.1 p.2) []

/-! ### Snapshot codec

`_ResponseCatcher` serialises the payload dict
`{"body": ..., "headers": ..., "status_code": ...}` with `json.dumps`, and
the middleware recovers it with `json.loads`.  The model keeps the three
fields and the loss-free round trip of the serialisation; the decoder is
a Lean function `Str → Option Snapshot` that inverts the encoder and
fails on strings that are not an encoded snapshot, mirroring the
`except` branch around `json.loads` / `Response(...)`. -/

/-- The cached unit: body text, header mapping (as produced by `pyDict`),
and status code, in the field order of the payload dict. -/
structure Snapshot where
  body : Str
  headers : List (Str × Str)
  status_code : Nat
deriving DecidableEq

/-- Serialise a natural number (length or status code). -/
def encNat (n : Nat) : Str := List.replicate n 'x' ++ ['.']

/-- Parse back a serialised natural number, returning the remainder. -/
def decNat : Str → Option (Nat × Str)
  | [] => none
  | c :: rest =>
      if c = '.' then some (0, rest)
      else if c = 'x' then (decNat rest).map (fun p => (p.1 + 1, p.2))
      else none

/-- Serialise a length-delimited string chunk. -/
def encChunk (s : Str) : Str := encNat s.length ++ s

/-- Parse back a chunk, returning the remainder. -/
def decChunk (l : Str) : Option (Str × Str) :=
  match decNat l with
  | none => none
  | some (n, rest) => if n ≤ rest.length then some (rest.take n, rest.drop n) else none

/-- Serialise the header pairs in order. -/
def encPairs : List (Str × Str) → Str
  | [] => []
  | (k, v) :: rest => encChunk k ++ encChunk v ++ encPairs rest

/-- Parse back exactly `n` header pairs, returning the remainder. -/
def decPairs : Nat → Str → Option (List (Str × Str) × Str)
  | 0, l => some ([], l)
  | n + 1, l =>
    match decChunk l with
    | none => none
    | some (k, l1) =>
      match decChunk l1 with
      | none => none
      | some (v, l2) =>
        match decPairs n l2 with
        | none => none
        | some (hs, l3) => some ((k, v) :: hs, l3)

/-- Serialise a snapshot: body chunk, header count and pairs, status code. -/
def encodeSnapshot (s : Snapshot) : Str :=
  encChunk s.body ++ encNat s.headers.length ++ encPairs s.headers ++ encNat s.status_code

/-- Parse a stored string back into a snapshot; `none` models the
exception raised by `json.loads` / response reconstruction on a string
that is not an encoded snapshot. -/
def decodeSnapshot (l : Str) : Option Snapshot :=
  match decChunk l with
  | none => none
  | some (b, l1) =>
    match decNat l1 with
    | none => none
    | some (n, l2) =>
      match decPairs n l2 with
      | none => none
      | some (hs, l3) =>
        match decNat l3 with
        | none => none
        | some (st, l4) => if l4 = [] then some ⟨b, hs, st⟩ else none

/-! ### Configuration, requests, responses and cache state -/

/-- Modelled from the spec: the configuration surface consumed by the
cache core (`cache_enabled`, `cache_ttl_default` in seconds,
`cache_key_prefix`).  The cache code reads these as `settings.CACHE_ENABLED`,
`settings.CACHE_TTL_DEFAULT` and `settings.CACHE_KEY_PREFIX`, but
`app/core/config.py` does not declare the fields, so their shape is taken
from the spec's configuration surface.  The namespace field keeps the
role of `CACHE_KEY_PREFIX` under a Lean-friendly name. -/
structure Settings where
  CACHE_ENABLED : Bool
  CACHE_TTL_DEFAULT : Nat
  CACHE_KEY_NS : Str
deriving DecidableEq

/-- The part of an ASGI HTTP scope the middleware reads: `scope["type"]`,
`scope["method"]`, `request.url.path`, and the raw query string.
`rawQuery = none` models a URL with no query component at all and
`rawQuery = some q` a URL with `?q`; Starlette's `request.url.query`
yields the empty string for both `none` and `some []`. -/
structure RequestData where
  scopeType : Str
  method : Str
  path : Str
  rawQuery : Option Str
deriving DecidableEq

/-- Model of `request.url.query`, and also of `request.url.query or ""`: for a Python
`str` the `or ""` is the identity (it replaces only the empty string, with
the empty string). -/
def urlQuery (r : RequestData) : Str := r.rawQuery.getD []

/-- The key `request.url.path + "?" + (request.url.query or "")` computed in
`CacheMiddleware.__call__`. -/
def requestCacheKey (r : RequestData) : Str := r.path ++ '?' :: urlQuery r

/-- A response as delivered to the caller: status code, raw header pairs
in send order, body text. -/
structure ResponseData where
  status : Nat
  headers : List (Str × Str)
  body : Str
deriving DecidableEq

/-- State owned by the `CacheService` singleton: the Redis database
contents and the two process-wide counters. -/
structure CacheState where
  store : List (Str × Str)
  hits : Nat
  misses : Nat
deriving DecidableEq

/-- Whether the Redis backend raises on `get` and on `set` calls; a
failing call raises an exception to the caller of the service method. -/
structure BackendBehavior where
  getFails : Bool
  setFails : Bool
deriving DecidableEq

/-- The fully reliable backend. -/
def noFail : BackendBehavior := ⟨false, false⟩

/-- The backend that raises on every call (unreachable Redis). -/
def allFail : BackendBehavior := ⟨true, true⟩

/-- The namespaced key `f"{settings.CACHE_KEY_PREFIX}:{key}"` used by
every Redis access in `CacheService`. -/
def namespacedKey (s : Settings) (key : Str) : Str := s.CACHE_KEY_NS ++ ':' :: key

/-! ### CacheService (`app/services/cache_service.py`) -/

/-- Model of `CacheService.get`.  Returns `(none, st)` when `redis.get` raises:
the exception propagates before either counter is touched.  Otherwise
returns `some value` together with the state whose counter for the
lookup outcome has been incremented. -/
def cacheServiceGet (s : Settings) (fails : Bool) (st : CacheState) (key : Str) :
    Option (Option Str) × CacheState :=
  if fails then (none, st)
  else
    match lookupStore st.store (namespacedKey s key) with
    | none => (some none, { st with misses := st.misses + 1 })
    | some v => (some (some v), { st with hits := st.hits + 1 })

/-- Model of `CacheService.set`.  Returns `none` when `redis.set` raises,
otherwise the state with the namespaced key bound to the value.  (The
TTL argument only picks the Redis expiry, which the model leaves to the
backend.) -/
def cacheServiceSet (s : Settings) (fails : Bool) (st : CacheState) (key value : Str) :
    Option CacheState :=
  if fails then none
  else some { st with store := updateAssoc st.store (namespacedKey s key) value }

/-- Model of `CacheService.clear`: `redis.flushdb()` empties the whole database,
namespaced or not. -/
def cacheServiceClear (st : CacheState) : CacheState := { st with store := [] }

/-! ### CacheMiddleware and _ResponseCatcher
(`app/api/middleware/cache_middleware.py`) -/

/-- Outcome of one request through the middleware: the response
delivered to the caller, the cache state afterwards, whether the
downstream application ran, and whether `cache_service.set` was
invoked. -/
structure MWResult where
  response : ResponseData
  state : CacheState
  downstreamInvoked : Bool
  setCalled : Bool
deriving DecidableEq

/-- Model of `_ResponseCatcher.__call__`: run the downstream app, forward its
response unchanged, and afterwards — if the accumulated status is 200
and caching is enabled — encode the payload (body text, headers collapsed
to a dict, status code) and call `cache_service.set`; a failing set is
logged and swallowed. -/
def responseCatcher (s : Settings) (setFails : Bool) (key : Str)
    (app : RequestData → ResponseData) (req : RequestData) (st : CacheState) : MWResult :=
  let r := app req
  if r.status = 200 ∧ s.CACHE_ENABLED = true then
    let payload := encodeSnapshot ⟨r.body, pyDict r.headers, r.status⟩
    match cacheServiceSet s setFails st key payload with
    | some st2 => ⟨r, st2, true, true⟩
    | none => ⟨r, st, true, true⟩
  else ⟨r, st, true, false⟩

/-- Model of `CacheMiddleware.__call__`.  On an HTTP GET with caching enabled:
look up the key (a raised backend error is caught and treated as
`cached = None`); `if cached:` is Python truthiness, so both `None` and
the empty string fall through to the catcher; a nonempty cached string
is decoded into a stored response, or served raw with status 200 and no
headers when decoding raises.  Everything else bypasses the cache. -/
def cacheMiddleware (s : Settings) (b : BackendBehavior)
    (app : RequestData → ResponseData) (req : RequestData) (st : CacheState) : MWResult :=
  if req.scopeType = "http".toList ∧ req.method = "GET".toList ∧ s.CACHE_ENABLED = true then
    let key := requestCacheKey req
    let got := cacheServiceGet s b.getFails st key
    match got.1.getD none with
    | some v =>
        if v = [] then responseCatcher s b.setFails key app req got.2
        else
          match decodeSnapshot v with
          | some snap => ⟨⟨snap.status_code, snap.headers, snap.body⟩, got.2, false, false⟩
          | none => ⟨⟨200, [], v⟩, got.2, false, false⟩
    | none => responseCatcher s b.setFails key app req got.2
  else ⟨app req, st, true, false⟩

/-! ### Introspection endpoints (`app/api/v1/cache.py`) and statistics -/

/-- A raised `HTTPException`. -/
structure HTTPError where
  status_code : Nat
  detail : Str
deriving DecidableEq

/-- The `POST /cache/clear` endpoint `cache_clear`: a 400 error without
touching the service when caching is disabled, otherwise
`cache_service.clear()` and the body `{"status": "cleared"}` (modelled
by its value string). -/
def cacheClear (s : Settings) (st : CacheState) : Except HTTPError Str × CacheState :=
  if s.CACHE_ENABLED = true then (Except.ok "cleared".toList, cacheServiceClear st)
  else (Except.error ⟨400, "Caching is disabled".toList⟩, st)

/-- The float value bound to `hit_rate` in `CacheService.stats`:
`hits / total * 100` when `total > 0`, else `0.0`, computed here in ℚ
(the values exercised by the spec are exactly representable). -/
def hitRateValue (hits misses : Nat) : ℚ :=
  if hits + misses > 0 then (hits : ℚ) / ((hits : ℚ) + (misses : ℚ)) * 100 else 0

/-- Round `a / t` to the nearest integer, ties to the even neighbour
(banker's rounding), in exact natural arithmetic: keep the truncated
quotient when the remainder is below half the divisor, bump it when
above, and on an exact tie pick whichever of the two neighbours is
even.  This is the rounding CPython's float formatting applies. -/
def halfEvenRound (a t : Nat) : Nat :=
  if 2 * (a % t) < t then a / t
  else if t < 2 * (a % t) then a / t + 1
  else if (a / t) % 2 = 0 then a / t else a / t + 1

/-- The whole number of hundredths that `f"{hit_rate:.2f}"` rounds the
rate to: `rate * 100 = 10000 * hits / total` rounded half-to-even, as
CPython's float formatting does.  (The rate values the spec exercises,
including the tie at `hits = 1, misses = 31`, are exactly representable
as binary floats, so rounding the exact rational agrees with rounding
the float.)  The lemma `hitRateCents_nearest` below proves the result
is within half a hundredth of the exact rate. -/
def hitRateCents (hits misses : Nat) : Nat :=
  if hits + misses > 0 then halfEvenRound (10000 * hits) (hits + misses)
  else 0

/-- Render a whole number of hundredths as the `f"{...:.2f}"` string:
integer part, a dot, and exactly two decimal digits. -/
def format2cents (cents : Nat) : Str :=
  Nat.toDigits 10 (cents / 100) ++
    '.' :: (if cents % 100 < 10 then '0' :: Nat.toDigits 10 (cents % 100)
            else Nat.toDigits 10 (cents % 100))

/-- The dict returned by `CacheService.stats`. -/
structure StatsSnapshot where
  hits : Nat
  misses : Nat
  hit_rate : Str
deriving DecidableEq

/-- Model of `CacheService.stats`: the counters plus `f"{hit_rate:.2f}%"`. -/
def cacheServiceStats (st : CacheState) : StatsSnapshot :=
  ⟨st.hits, st.misses, format2cents (hitRateCents st.hits st.misses) ++ ['%']⟩

/-! ### Concrete fixtures used by closed theorems -/

/-- Settings with caching enabled, default TTL 60s, namespace `ns`. -/
def sEnabled : Settings := ⟨true, 60, ['n', 's']⟩

/-- Settings with caching disabled. -/
def sDisabled : Settings := ⟨false, 60, ['n', 's']⟩

/-- Request `GET /p?q=1` over HTTP. -/
def reqGET : RequestData := ⟨"http".toList, "GET".toList, "/p".toList, some "q=1".toList⟩

/-- Request `GET /p?q=2`: same path as `reqGET`, query differing in one character. -/
def reqGET2 : RequestData := ⟨"http".toList, "GET".toList, "/p".toList, some "q=2".toList⟩

/-- Request `POST /p?q=1` over HTTP. -/
def reqPOST : RequestData := ⟨"http".toList, "POST".toList, "/p".toList, some "q=1".toList⟩

/-- Empty Redis database, both counters zero. -/
def emptyState : CacheState := ⟨[], 0, 0⟩

/-- A downstream app answering 200 with one header and body `b`. -/
def app200 : RequestData → ResponseData := fun _ => ⟨200, [(['a'], ['1'])], ['b']⟩

/-- A downstream app answering 404. -/
def app404 : RequestData → ResponseData := fun _ => ⟨404, [], ['x']⟩

/-- A downstream app answering 200 with a repeated header name. -/
def appDup : RequestData → ResponseData := fun _ => ⟨200, [(['a'], ['1']), (['a'], ['2'])], ['b']⟩

/-- A stored string that is not a valid encoded snapshot. -/
def garbageVal : Str := ['z', 'z']

/-- A database holding `garbageVal` under the namespaced key of `reqGET`. -/
def stWithGarbage : CacheState :=
  ⟨[(namespacedKey sEnabled (requestCacheKey reqGET), garbageVal)], 0, 0⟩

/-- A database holding the empty string under the namespaced key of
`reqGET`. -/
def stWithEmpty : CacheState :=
  ⟨[(namespacedKey sEnabled (requestCacheKey reqGET), [])], 0, 0⟩

/-! ## Helper lemmas -/

/-! #### Round-trip lemmas for the codec -/

theorem decNat_encNat (n : Nat) (r : Str) : decNat (encNat n ++ r) = some (n, r) := by
  induction n with
  | zero => simp [encNat, decNat]
  | succ k ih =>
      simp only [encNat, List.append_assoc, List.singleton_append] at ih ⊢
      simp [List.replicate_succ, decNat, ih]

theorem decChunk_encChunk (s : Str) (r : Str) : decChunk (encChunk s ++ r) = some (s, r) := by
  simp only [encChunk, decChunk, List.append_assoc, decNat_encNat]
  simp [List.take_left, List.drop_left]

theorem decPairs_encPairs (hs : List (Str × Str)) (r : Str) :
    decPairs hs.length (encPairs hs ++ r) = some (hs, r) := by
  induction hs generalizing r with
  | nil => rfl
  | cons p rest ih =>
      obtain ⟨k, v⟩ := p
      simp only [encPairs, List.length_cons, decPairs, List.append_assoc, decChunk_encChunk]
      simp [ih]

theorem decodeSnapshot_encodeSnapshot (s : Snapshot) :
    decodeSnapshot (encodeSnapshot s) = some s := by
  obtain ⟨b, hs, st⟩ := s
  have h1 : encodeSnapshot ⟨b, hs, st⟩ =
      encChunk b ++ (encNat hs.length ++ (encPairs hs ++ (encNat st ++ []))) := by
    simp [encodeSnapshot]
  rw [h1]
  simp only [decodeSnapshot, decChunk_encChunk, decNat_encNat, decPairs_encPairs]
  simp

theorem encodeSnapshot_ne_nil (s : Snapshot) : encodeSnapshot s ≠ [] := by
  obtain ⟨b, hs, st⟩ := s
  simp only [encodeSnapshot, encChunk, encNat]
  cases h : List.replicate b.length 'x' with
  | nil => simp
  | cons c cs => simp [h]

theorem lookupStore_updateAssoc_self (l : List (Str × Str)) (k v : Str) :
    lookupStore (updateAssoc l k v) k = some v := by
  induction l with
  | nil => simp [updateAssoc, lookupStore]
  | cons p rest ih =>
      obtain ⟨k0, v0⟩ := p
      by_cases h : k0 = k
      · simp [updateAssoc, lookupStore, h]
      · simp [updateAssoc, lookupStore, h, ih]

/-- Half-to-even rounding of `a / t` lands within half a unit of the
exact quotient. -/
theorem halfEvenRound_nearest (a t : Nat) (ht : 0 < t) :
    |(halfEvenRound a t : ℚ) - (a : ℚ) / (t : ℚ)| ≤ 1 / 2 := by
  have htq : (0 : ℚ) < (t : ℚ) := by exact_mod_cast ht
  have hmodq : (t : ℚ) * ((a / t : ℕ) : ℚ) + ((a % t : ℕ) : ℚ) = (a : ℚ) := by
    exact_mod_cast Nat.div_add_mod a t
  have hkey : (a : ℚ) / (t : ℚ) = ((a / t : ℕ) : ℚ) + ((a % t : ℕ) : ℚ) / (t : ℚ) := by
    rw [← hmodq]
    field_simp
    ring
  have hr0 : (0 : ℚ) ≤ ((a % t : ℕ) : ℚ) / (t : ℚ) := by positivity
  have hrlt : ((a % t : ℕ) : ℚ) / (t : ℚ) < 1 := by
    rw [div_lt_one htq]
    exact_mod_cast Nat.mod_lt a ht
  by_cases h1 : 2 * (a % t) < t
  · have hhalf : ((a % t : ℕ) : ℚ) / (t : ℚ) ≤ 1 / 2 := by
      rw [div_le_iff₀ htq]
      have h1q : ((2 * (a % t) : ℕ) : ℚ) ≤ (t : ℚ) := by exact_mod_cast h1.le
      push_cast at h1q
      linarith
    rw [halfEvenRound, if_pos h1, hkey, abs_le]
    constructor <;> linarith
  · by_cases h2 : t < 2 * (a % t)
    · have hhalf : 1 / 2 ≤ ((a % t : ℕ) : ℚ) / (t : ℚ) := by
        rw [le_div_iff₀ htq]
        have h2q : (t : ℚ) ≤ ((2 * (a % t) : ℕ) : ℚ) := by exact_mod_cast h2.le
        push_cast at h2q
        linarith
      rw [halfEvenRound, if_neg h1, if_pos h2, hkey, abs_le]
      constructor <;> push_cast <;> linarith
    · have hhalf : ((a % t : ℕ) : ℚ) / (t : ℚ) = 1 / 2 := by
        rw [div_eq_iff htq.ne']
        have hts : 2 * (a % t) = t := le_antisymm (not_lt.mp h2) (not_lt.mp h1)
        have htsq : ((2 * (a % t) : ℕ) : ℚ) = (t : ℚ) := by exact_mod_cast congrArg Nat.cast hts
        push_cast at htsq
        linarith
      rw [halfEvenRound, if_neg h1, if_neg h2, hkey]
      by_cases h3 : (a / t) % 2 = 0
      · rw [if_pos h3, abs_le]
        constructor <;> linarith
      · rw [if_neg h3, abs_le]
        constructor <;> push_cast <;> linarith

/-- The hundredths computed by `hitRateCents` are within half a
hundredth of the exact percentage rate times 100. -/
theorem hitRateCents_nearest (h m : Nat) (hpos : 0 < h + m) :
    |(hitRateCents h m : ℚ) - hitRateValue h m * 100| ≤ 1 / 2 := by
  have hq : ((h : ℚ) + (m : ℚ)) ≠ 0 := by
    have : (0 : ℚ) < (h : ℚ) + (m : ℚ) := by exact_mod_cast hpos
    exact this.ne'
  have hx : hitRateValue h m * 100 = ((10000 * h : ℕ) : ℚ) / ((h + m : ℕ) : ℚ) := by
    rw [hitRateValue, if_pos hpos]
    push_cast
    field_simp
    ring
  rw [hitRateCents, if_pos hpos, hx]
  exact halfEvenRound_nearest (10000 * h) (h + m) hpos

/-- The response tee always runs the downstream application. -/
theorem responseCatcher_invoked (s : Settings) (sf : Bool) (key : Str)
    (app : RequestData → ResponseData) (req : RequestData) (st : CacheState) :
    (responseCatcher s sf key app req st).downstreamInvoked = true := by
  by_cases hc : (app req).status = 200 ∧ s.CACHE_ENABLED = true
  · cases sf <;> simp [responseCatcher, hc, cacheServiceSet]
  · simp [responseCatcher, hc]

/-- With a working backend, a 200 downstream response makes the tee
store the encoded snapshot under the namespaced key. -/
theorem responseCatcher_200 (s : Settings) (key : Str)
    (app : RequestData → ResponseData) (req : RequestData) (st : CacheState)
    (h200 : (app req).status = 200) (he : s.CACHE_ENABLED = true) :
    responseCatcher s false key app req st =
      ⟨app req,
       ⟨updateAssoc st.store (namespacedKey s key)
          (encodeSnapshot ⟨(app req).body, pyDict (app req).headers, (app req).status⟩),
        st.hits, st.misses⟩,
       true, true⟩ := by
  simp [responseCatcher, h200, he, cacheServiceSet]

/-- A cacheable request whose lookup finds nothing counts a miss and
falls to the tee. -/
theorem cacheMiddleware_noFail_of_none (s : Settings)
    (app : RequestData → ResponseData) (req : RequestData) (st : CacheState)
    (hsc : req.scopeType = "http".toList) (hm : req.method = "GET".toList)
    (he : s.CACHE_ENABLED = true)
    (hl : lookupStore st.store (namespacedKey s (requestCacheKey req)) = none) :
    cacheMiddleware s noFail app req st =
      responseCatcher s false (requestCacheKey req) app req
        { st with misses := st.misses + 1 } := by
  simp [cacheMiddleware, hsc, hm, he, noFail, cacheServiceGet, hl]

/-- A cacheable request whose lookup finds the empty string counts a hit
but fails Python truthiness and falls to the tee. -/
theorem cacheMiddleware_noFail_of_empty (s : Settings)
    (app : RequestData → ResponseData) (req : RequestData) (st : CacheState)
    (hsc : req.scopeType = "http".toList) (hm : req.method = "GET".toList)
    (he : s.CACHE_ENABLED = true)
    (hl : lookupStore st.store (namespacedKey s (requestCacheKey req)) = some []) :
    cacheMiddleware s noFail app req st =
      responseCatcher s false (requestCacheKey req) app req
        { st with hits := st.hits + 1 } := by
  simp [cacheMiddleware, hsc, hm, he, noFail, cacheServiceGet, hl]

/-- A cacheable request whose lookup finds a nonempty decodable value is
served from the snapshot without running downstream. -/
theorem cacheMiddleware_noFail_hit (s : Settings)
    (app : RequestData → ResponseData) (req : RequestData) (st : CacheState)
    (v : Str) (snap : Snapshot)
    (hsc : req.scopeType = "http".toList) (hm : req.method = "GET".toList)
    (he : s.CACHE_ENABLED = true)
    (hl : lookupStore st.store (namespacedKey s (requestCacheKey req)) = some v)
    (hv : v ≠ []) (hd : decodeSnapshot v = some snap) :
    cacheMiddleware s noFail app req st =
      ⟨⟨snap.status_code, snap.headers, snap.body⟩,
       { st with hits := st.hits + 1 }, false, false⟩ := by
  simp [cacheMiddleware, hsc, hm, he, noFail, cacheServiceGet, hl, hv, hd]

/-- A cacheable request whose lookup finds a nonempty undecodable value
is served raw without running downstream. -/
theorem cacheMiddleware_noFail_degraded (s : Settings)
    (app : RequestData → ResponseData) (req : RequestData) (st : CacheState) (v : Str)
    (hsc : req.scopeType = "http".toList) (hm : req.method = "GET".toList)
    (he : s.CACHE_ENABLED = true)
    (hl : lookupStore st.store (namespacedKey s (requestCacheKey req)) = some v)
    (hv : v ≠ []) (hd : decodeSnapshot v = none) :
    cacheMiddleware s noFail app req st =
      ⟨⟨200, [], v⟩, { st with hits := st.hits + 1 }, false, false⟩ := by
  simp [cacheMiddleware, hsc, hm, he, noFail, cacheServiceGet, hl, hv, hd]

/-! ## Claims -/

/-- C9: cache key derivation is deterministic and discriminating — two
requests with the same path and the same raw query string get the same
key, and two with the same path but raw query strings differing in at
least one character get different keys. -/
theorem key_deterministic_and_discriminating (r1 r2 : RequestData)
    (hp : r1.path = r2.path) :
    (urlQuery r1 = urlQuery r2 → requestCacheKey r1 = requestCacheKey r2) ∧
    (urlQuery r1 ≠ urlQuery r2 → requestCacheKey r1 ≠ requestCacheKey r2) := by
  constructor
  · intro hq
    rw [requestCacheKey, requestCacheKey, hp, hq]
  · intro hq hkey
    rw [requestCacheKey, requestCacheKey, hp] at hkey
    exact hq (List.cons.injEq .. ▸ List.append_cancel_left hkey).2

/-- Witness for C9 at `GET /p?q=1` versus `GET /p?q=2`. -/
theorem key_discrimination_witness : requestCacheKey reqGET ≠ requestCacheKey reqGET2 :=
  (key_deterministic_and_discriminating reqGET reqGET2 rfl).2 (by decide)

/-- C10: a URL with no query component and a URL with a present-but-empty
query string derive the identical cache key, because the key is always
`path ++ "?" ++ (query or "")` with the query defaulting to empty. -/
theorem key_absent_query_eq_empty_query (t m p : Str) :
    requestCacheKey ⟨t, m, p, none⟩ = requestCacheKey ⟨t, m, p, some []⟩ ∧
    ∀ r : RequestData, requestCacheKey r = r.path ++ '?' :: urlQuery r :=
  ⟨rfl, fun _ => rfl⟩

/-- C6: a request whose method is not GET, or processed while caching is
disabled, bypasses the cache entirely: the downstream response is
returned as-is, the downstream runs, the cache state (store and both
counters) is unchanged, and no store write is attempted. -/
theorem bypass_non_get_or_disabled (s : Settings) (b : BackendBehavior)
    (app : RequestData → ResponseData) (req : RequestData) (st : CacheState)
    (h : req.method ≠ "GET".toList ∨ s.CACHE_ENABLED = false) :
    cacheMiddleware s b app req st = ⟨app req, st, true, false⟩ := by
  rw [cacheMiddleware, if_neg]
  rintro ⟨-, h2, h3⟩
  rcases h with h | h
  · exact h h2
  · rw [h] at h3
    cases h3

/-- Witness for C6: a POST request with caching enabled, and a GET
request with caching disabled, both bypass. -/
theorem bypass_witness :
    cacheMiddleware sEnabled noFail app200 reqPOST emptyState
      = ⟨app200 reqPOST, emptyState, true, false⟩ ∧
    cacheMiddleware sDisabled noFail app200 reqGET emptyState
      = ⟨app200 reqGET, emptyState, true, false⟩ :=
  ⟨bypass_non_get_or_disabled sEnabled noFail app200 reqPOST emptyState (Or.inl (by decide)),
   bypass_non_get_or_disabled sDisabled noFail app200 reqGET emptyState (Or.inr rfl)⟩

/-- C8: the clear endpoint answers a 400 error and leaves the cache
state untouched when caching is disabled, and empties the whole store
when caching is enabled. -/
theorem clear_endpoint (s : Settings) (st : CacheState) :
    (s.CACHE_ENABLED = false →
        cacheClear s st = (Except.error ⟨400, "Caching is disabled".toList⟩, st)) ∧
    (s.CACHE_ENABLED = true →
        (cacheClear s st).1 = Except.ok "cleared".toList ∧
        ∀ k, lookupStore (cacheClear s st).2.store k = none) := by
  constructor
  · intro h
    rw [cacheClear, if_neg]
    rw [h]
    simp
  · intro h
    rw [cacheClear, if_pos h]
    exact ⟨rfl, fun _ => rfl⟩

/-- Witness for C8: both branches at concrete settings. -/
theorem clear_endpoint_witness :
    cacheClear sDisabled stWithGarbage
      = (Except.error ⟨400, "Caching is disabled".toList⟩, stWithGarbage) ∧
    (cacheClear sEnabled stWithGarbage).1 = Except.ok "cleared".toList :=
  ⟨(clear_endpoint sDisabled stWithGarbage).1 rfl,
   ((clear_endpoint sEnabled stWithGarbage).2 rfl).1⟩

/-- C5: the response tee calls `cache_service.set` exactly when the
accumulated status is 200 and caching is enabled, in which case (with a
working backend) the store gains the encoded snapshot under the
namespaced key; otherwise the store is untouched.  The response is
forwarded unchanged either way. -/
theorem tee_writes_iff_200_and_enabled (s : Settings) (key : Str)
    (app : RequestData → ResponseData) (req : RequestData) (st : CacheState) :
    ((responseCatcher s false key app req st).setCalled = true ↔
      ((app req).status = 200 ∧ s.CACHE_ENABLED = true)) ∧
    (responseCatcher s false key app req st).state.store =
      (if (app req).status = 200 ∧ s.CACHE_ENABLED = true
       then updateAssoc st.store (namespacedKey s key)
          (encodeSnapshot ⟨(app req).body, pyDict (app req).headers, (app req).status⟩)
       else st.store) ∧
    (responseCatcher s false key app req st).response = app req := by
  by_cases hc : (app req).status = 200 ∧ s.CACHE_ENABLED = true
  · simp [responseCatcher, hc, cacheServiceSet]
  · simp [responseCatcher, hc]

/-- Counterexample to C4 as stated: a stored empty string is found by
the lookup and fails to decode (`json.loads("")` raises), yet the
middleware's `if cached:` truthiness check is false for the empty
string, so the request is served by the downstream pipeline — here a
404 — and not as a raw degraded hit with status 200 and no headers. -/
theorem empty_value_not_degraded_hit :
    lookupStore stWithEmpty.store (namespacedKey sEnabled (requestCacheKey reqGET))
      = some [] ∧
    decodeSnapshot [] = none ∧
    (cacheMiddleware sEnabled noFail app404 reqGET stWithEmpty).downstreamInvoked = true ∧
    ¬ (cacheMiddleware sEnabled noFail app404 reqGET stWithEmpty).response
        = ⟨200, [], []⟩ := by
  decide

/-- C4 (amended): a found nonempty value that fails to decode is served
as a degraded hit — raw stored string as body, status 200, no headers —
without invoking the downstream pipeline (the decode failure is caught,
never re-raised); a found empty string instead fails Python truthiness
and falls through to the downstream pipeline. -/
theorem degraded_hit_on_undecodable (s : Settings) (b : BackendBehavior)
    (app : RequestData → ResponseData) (req : RequestData) (st : CacheState) (v : Str)
    (hsc : req.scopeType = "http".toList) (hm : req.method = "GET".toList)
    (he : s.CACHE_ENABLED = true) (hb : b.getFails = false)
    (hl : lookupStore st.store (namespacedKey s (requestCacheKey req)) = some v)
    (hv : v ≠ []) (hd : decodeSnapshot v = none) :
    cacheMiddleware s b app req st =
      ⟨⟨200, [], v⟩, { st with hits := st.hits + 1 }, false, false⟩ := by
  simp [cacheMiddleware, hsc, hm, he, cacheServiceGet, hb, hl, hv, hd]

/-- Witness for C4 (amended): the garbage value is undecodable and is
served raw. -/
theorem degraded_hit_witness :
    cacheMiddleware sEnabled noFail app200 reqGET stWithGarbage =
      ⟨⟨200, [], garbageVal⟩, { stWithGarbage with hits := 1 }, false, false⟩ :=
  degraded_hit_on_undecodable sEnabled noFail app200 reqGET stWithGarbage garbageVal
    rfl rfl rfl rfl (by decide) (by decide) (by decide)

/-- C3 (amended): `CacheService.get` increments `hits` exactly when the
backend lookup finds a stored value — whether or not that value decodes —
and increments `misses` exactly when it finds none; the store itself is
unchanged. -/
theorem hits_iff_value_found (s : Settings) (st : CacheState) (key : Str) :
    ((cacheServiceGet s false st key).2.hits = st.hits + 1 ↔
      lookupStore st.store (namespacedKey s key) ≠ none) ∧
    ((cacheServiceGet s false st key).2.misses = st.misses + 1 ↔
      lookupStore st.store (namespacedKey s key) = none) ∧
    (cacheServiceGet s false st key).2.store = st.store := by
  cases hl : lookupStore st.store (namespacedKey s key) <;>
    simp [cacheServiceGet, hl]

/-- Counterexample to C3 as stated: a lookup that finds the undecodable
`garbageVal` still increments the hits counter. -/
theorem undecodable_hit_still_counted :
    decodeSnapshot garbageVal = none ∧
    (cacheMiddleware sEnabled noFail app200 reqGET stWithGarbage).state.hits = 1 := by
  decide

/-- Counterexample to C7 as stated: with no observed requests the
snapshot renders the string `0.00%`, not `0%`. -/
theorem hit_rate_zero_rendering :
    (cacheServiceStats emptyState).hit_rate ≠ "0%".toList ∧
    (cacheServiceStats emptyState).hit_rate = "0.00%".toList := by
  decide

/-- C7 (amended): the reported hit rate is `hits / (hits + misses)` as a
percentage, formatted to two decimal places with CPython's
half-to-even rounding (the rounded hundredths are within half a
hundredth of the exact rate), with value 0 when no request has been
observed (no division by zero); it renders as `"0.00%"` for
`hits = misses = 0`, `"50.00%"` for `hits = misses = 5`, and `"3.12%"`
at the exactly representable tie `hits = 1, misses = 31`. -/
theorem stats_hit_rate (hits misses : Nat) (hpos : 0 < hits + misses) :
    |(hitRateCents hits misses : ℚ) - hitRateValue hits misses * 100| ≤ 1 / 2 ∧
    hitRateValue hits misses = (hits : ℚ) / ((hits : ℚ) + (misses : ℚ)) * 100 ∧
    hitRateValue 0 0 = 0 ∧
    (cacheServiceStats ⟨[], 0, 0⟩).hit_rate = "0.00%".toList ∧
    (cacheServiceStats ⟨[], 5, 5⟩).hit_rate = "50.00%".toList ∧
    (cacheServiceStats ⟨[], 1, 31⟩).hit_rate = "3.12%".toList := by
  refine ⟨hitRateCents_nearest hits misses hpos, ?_, ?_, by decide, by decide, by decide⟩
  · rw [hitRateValue, if_pos hpos]
  · rfl

/-- Witness for C7 (amended) at the tie `hits = 1, misses = 31`. -/
theorem stats_hit_rate_witness :
    |(hitRateCents 1 31 : ℚ) - hitRateValue 1 31 * 100| ≤ 1 / 2 ∧
    (cacheServiceStats ⟨[], 1, 31⟩).hit_rate = "3.12%".toList :=
  ⟨(stats_hit_rate 1 31 (by decide)).1, (stats_hit_rate 1 31 (by decide)).2.2.2.2.2⟩

/-- Counterexample to C2 as stated: with the backend raising on every
call, one GET request leaves `misses` at 0 — `CacheService.get` raises
on the backend lookup before reaching the counting code — although the
request is served by downstream. -/
theorem backend_failure_not_counted :
    (cacheMiddleware sEnabled allFail app200 reqGET emptyState).state.misses = 0 ∧
    ¬ (cacheMiddleware sEnabled allFail app200 reqGET emptyState).state.misses
        = emptyState.misses + 1 ∧
    (cacheMiddleware sEnabled allFail app200 reqGET emptyState).downstreamInvoked = true := by
  decide

/-- C2 (amended): with the backend raising on every call, a cacheable
GET request is still served end-to-end by the downstream pipeline with
no error surfaced, and the cache state — store, hits AND misses — is
completely unchanged (hits stays 0, and so does misses). -/
theorem backend_failure_served_by_downstream (s : Settings)
    (app : RequestData → ResponseData) (req : RequestData) (st : CacheState)
    (hsc : req.scopeType = "http".toList) (hm : req.method = "GET".toList)
    (he : s.CACHE_ENABLED = true) :
    (cacheMiddleware s allFail app req st).response = app req ∧
    (cacheMiddleware s allFail app req st).downstreamInvoked = true ∧
    (cacheMiddleware s allFail app req st).state = st := by
  by_cases h200 : (app req).status = 200 <;>
    simp [cacheMiddleware, hsc, hm, he, allFail, cacheServiceGet, responseCatcher,
      cacheServiceSet, h200]

/-- Witness for C2 (amended) at a concrete failing-backend request. -/
theorem backend_failure_witness :
    (cacheMiddleware sEnabled allFail app200 reqGET emptyState).response = app200 reqGET ∧
    (cacheMiddleware sEnabled allFail app200 reqGET emptyState).downstreamInvoked = true ∧
    (cacheMiddleware sEnabled allFail app200 reqGET emptyState).state = emptyState :=
  backend_failure_served_by_downstream sEnabled app200 reqGET emptyState rfl rfl rfl

/-- Counterexample to C1 as stated: a downstream 404 is not cached, so
the second identical request invokes the downstream pipeline again; and
after a 200 with a repeated header name, the second response's headers
(collapsed by the dict comprehension) are not byte-identical to the
first response's. -/
theorem repeat_request_counterexample :
    (cacheMiddleware sEnabled noFail app404 reqGET
        (cacheMiddleware sEnabled noFail app404 reqGET emptyState).state).downstreamInvoked
      = true ∧
    ¬ (cacheMiddleware sEnabled noFail appDup reqGET
        (cacheMiddleware sEnabled noFail appDup reqGET emptyState).state).response
      = (cacheMiddleware sEnabled noFail appDup reqGET emptyState).response := by
  decide

/-- C1 (amended): for a cacheable GET with a working backend, if the
first response — whenever it is actually produced by the downstream
pipeline — has status 200 and no repeated header names (so the dict
collapse is the identity), then a second identical request is answered
with an identical status/headers/body response without invoking the
downstream pipeline. -/
theorem repeat_request_served_from_cache (s : Settings)
    (app : RequestData → ResponseData) (req : RequestData) (st : CacheState)
    (hsc : req.scopeType = "http".toList) (hm : req.method = "GET".toList)
    (he : s.CACHE_ENABLED = true)
    (hgood : (cacheMiddleware s noFail app req st).downstreamInvoked = true →
        (app req).status = 200 ∧ pyDict (app req).headers = (app req).headers) :
    (cacheMiddleware s noFail app req
        (cacheMiddleware s noFail app req st).state).response
      = (cacheMiddleware s noFail app req st).response ∧
    (cacheMiddleware s noFail app req
        (cacheMiddleware s noFail app req st).state).downstreamInvoked = false := by
  cases hl : lookupStore st.store (namespacedKey s (requestCacheKey req)) with
  | none =>
      have h1 := cacheMiddleware_noFail_of_none s app req st hsc hm he hl
      have hinv : (cacheMiddleware s noFail app req st).downstreamInvoked = true := by
        rw [h1]
        exact responseCatcher_invoked ..
      obtain ⟨h200, hnd⟩ := hgood hinv
      have hr1 := h1.trans (responseCatcher_200 s (requestCacheKey req) app req _ h200 he)
      have hresp : (cacheMiddleware s noFail app req st).response = app req := by
        rw [hr1]
      have hstore : (cacheMiddleware s noFail app req st).state.store
          = updateAssoc st.store (namespacedKey s (requestCacheKey req))
              (encodeSnapshot ⟨(app req).body, pyDict (app req).headers, (app req).status⟩) := by
        rw [hr1]
      have h3 := cacheMiddleware_noFail_hit s app req
        (cacheMiddleware s noFail app req st).state
        (encodeSnapshot ⟨(app req).body, pyDict (app req).headers, (app req).status⟩)
        ⟨(app req).body, pyDict (app req).headers, (app req).status⟩
        hsc hm he (by rw [hstore]; exact lookupStore_updateAssoc_self ..)
        (encodeSnapshot_ne_nil _) (decodeSnapshot_encodeSnapshot _)
      rw [h3, hresp]
      exact ⟨by rw [hnd], rfl⟩
  | some v =>
      by_cases hv : v = []
      · subst hv
        have h1 := cacheMiddleware_noFail_of_empty s app req st hsc hm he hl
        have hinv : (cacheMiddleware s noFail app req st).downstreamInvoked = true := by
          rw [h1]
          exact responseCatcher_invoked ..
        obtain ⟨h200, hnd⟩ := hgood hinv
        have hr1 := h1.trans (responseCatcher_200 s (requestCacheKey req) app req _ h200 he)
        have hresp : (cacheMiddleware s noFail app req st).response = app req := by
          rw [hr1]
        have hstore : (cacheMiddleware s noFail app req st).state.store
            = updateAssoc st.store (namespacedKey s (requestCacheKey req))
                (encodeSnapshot ⟨(app req).body, pyDict (app req).headers, (app req).status⟩) := by
          rw [hr1]
        have h3 := cacheMiddleware_noFail_hit s app req
          (cacheMiddleware s noFail app req st).state
          (encodeSnapshot ⟨(app req).body, pyDict (app req).headers, (app req).status⟩)
          ⟨(app req).body, pyDict (app req).headers, (app req).status⟩
          hsc hm he (by rw [hstore]; exact lookupStore_updateAssoc_self ..)
          (encodeSnapshot_ne_nil _) (decodeSnapshot_encodeSnapshot _)
        rw [h3, hresp]
        exact ⟨by rw [hnd], rfl⟩
      · cases hd : decodeSnapshot v with
        | some snap =>
            have h1 := cacheMiddleware_noFail_hit s app req st v snap hsc hm he hl hv hd
            have h3 := cacheMiddleware_noFail_hit s app req
              (cacheMiddleware s noFail app req st).state v snap hsc hm he
              (by rw [h1]; exact hl) hv hd
            rw [h3, h1]
            exact ⟨rfl, rfl⟩
        | none =>
            have h1 := cacheMiddleware_noFail_degraded s app req st v hsc hm he hl hv hd
            have h3 := cacheMiddleware_noFail_degraded s app req
              (cacheMiddleware s noFail app req st).state v hsc hm he
              (by rw [h1]; exact hl) hv hd
            rw [h3, h1]
            exact ⟨rfl, rfl⟩

/-- Witness for C1 (amended): a 200 response with distinct header names
is cached by the first request and replayed identically by the second. -/
theorem repeat_request_witness :
    (cacheMiddleware sEnabled noFail app200 reqGET
        (cacheMiddleware sEnabled noFail app200 reqGET emptyState).state).response
      = (cacheMiddleware sEnabled noFail app200 reqGET emptyState).response ∧
    (cacheMiddleware sEnabled noFail app200 reqGET
        (cacheMiddleware sEnabled noFail app200 reqGET emptyState).state).downstreamInvoked
      = false :=
  repeat_request_served_from_cache sEnabled app200 reqGET emptyState rfl rfl rfl (by decide)

end AutoAudit
